import Mathlib

/-!
Shallow embedding of the Instagram profile scraper (`src/python-code/ig.py`).

The scraper drives a browser session: it logs in, opens the first post of a
profile, and loops over posts (at most 20), extracting for each one a URL, a
caption, OCR text from the post image, and a filtered comment list, writing
one CSV row per (post, comment) pair (or a single row with empty comment
fields when a post has no valid comments).

The browser/DOM world is modelled as an explicit environment: per post, the
DOM state the extraction routine observes (`PostDom`), and per loop
iteration, whether the loop-level waits succeed and whether a "Next" control
is present (`IterEnv`).  Exceptions raised by awaited browser operations are
modelled as Boolean failure flags; an uncaught exception is an `aborted`
exit of the loop, which propagates (as in the Python `try`/`except`
structure) to the top-level `run`.
-/

namespace IgScraper

/-- Comment record produced by the comment-extraction JavaScript
(`ig.py` lines 123-132): a username and a body text. -/
structure Comment where
  username : String
  text : String
deriving DecidableEq

/-- Raw DOM state of one comment element (`ul._a9ym > div[role="button"]`):
`username` is the inner text of `h3 a` when that element exists, `text` the
inner text of `div._a9zs span` when that element exists. -/
structure CommentElem where
  username : Option String
  text : Option String
deriving DecidableEq

/-- JavaScript `x || d` for an optional string: the default is used when the
element is absent (`none`) or its text is the empty string (falsy). -/
def jsOrDefault (v : Option String) (d : String) : String :=
  match v with
  | none => d
  | some s => if s = "" then d else s

/-- The `map` step of the comment-extraction JavaScript (`ig.py` line
127-129): `username = comment.querySelector('h3 a')?.innerText || 'Unknown'`,
`text = comment.querySelector('div._a9zs span')?.innerText || ''`. -/
def commentOf (e : CommentElem) : Comment :=
  { username := jsOrDefault e.username "Unknown"
    text := jsOrDefault e.text "" }

/-- The comment-extraction JavaScript (`ig.py` lines 123-132): map every
comment element to a `Comment`, then `filter(comment => comment.text !== ''
&& comment.text !== 'No text')`. -/
def extractComments (es : List CommentElem) : List Comment :=
  (es.map commentOf).filter (fun c => c.text ≠ "" && c.text ≠ "No text")

/-- Environment of the OCR sub-step (`ig.py` lines 102-120): either no image
element matches `div[role="dialog"] div._aagu img`, or screenshot + decode +
recognition all succeed yielding text fragments in detection order, or some
step of capture/decoding/recognition raises an error. -/
inductive OcrOutcome where
  | noImage
  | ok (fragments : List String)
  | error
deriving DecidableEq

/-- OCR text computed by `ig.py` lines 102-120: starts as `''`; if an image
is found the recognized fragments are joined with single spaces
(`' '.join(...)`); any exception in the inner `try` replaces the text with
the sentinel `"OCR processing failed"`. -/
def ocrStep : OcrOutcome → String
  | OcrOutcome.noImage => ""
  | OcrOutcome.ok fragments => String.intercalate " " fragments
  | OcrOutcome.error => "OCR processing failed"

/-- Post record returned by `extract_post_data` (`ig.py` lines 136-141). -/
structure Post where
  url : Option String
  content : String
  ocr_text : String
  comments : List Comment
deriving DecidableEq

/-- DOM state observed by one call of `extract_post_data`: `dialogOk` models
that no awaited step inside the routine's `try` raises (in particular the
`wait_for_selector('div[role="dialog"]')` on line 83 does not time out);
`linkHref` is the `href` of the first `a[href^="/p/"]` anchor in the dialog
when one exists; `heading` the inner text of the first `h1` when one exists;
`ocr` the OCR sub-step environment; `commentElems` the comment elements. -/
structure PostDom where
  dialogOk : Bool
  linkHref : Option String
  heading : Option String
  ocr : OcrOutcome
  commentElems : List CommentElem
deriving DecidableEq

/-- The per-post extraction routine `extract_post_data` (`ig.py` lines
81-144): on any failure inside its `try` it returns `None` (line 144);
otherwise the URL is the anchor's href or null (lines 86-91), the content is
the `h1` text or the placeholder `'No content found'` (lines 94-99), the OCR
text is `ocrStep` of the OCR environment (lines 102-120), and the comments
are the filtered list (lines 123-132). -/
def extract_post_data (d : PostDom) : Option Post :=
  if d.dialogOk then
    some { url := d.linkHref
           content := d.heading.getD "No content found"
           ocr_text := ocrStep d.ocr
           comments := extractComments d.commentElems }
  else none

/-- One data row of the output CSV (`ig.py` lines 170-183): the five columns
`Post URL, Post Content, OCR Text, Comment Username, Comment Text`.  A null
post URL is kept as `none` (the csv writer renders Python `None` as an empty
cell). -/
structure Row where
  postUrl : Option String
  postContent : String
  ocrText : String
  commentUsername : String
  commentText : String
deriving DecidableEq

/-- Row written for one comment of a post (`ig.py` lines 170-176). -/
def commentRow (p : Post) (c : Comment) : Row :=
  { postUrl := p.url
    postContent := p.content
    ocrText := p.ocr_text
    commentUsername := c.username
    commentText := c.text }

/-- Rows written for one successfully extracted post (`ig.py` lines
167-184): Python tests `if post_data['comments']:` (truthy iff non-empty),
writing one row per comment in discovery order when the comment list is
non-empty, otherwise a single row with empty comment fields. -/
def rowsForPost (p : Post) : List Row :=
  if p.comments = [] then
    [{ postUrl := p.url
       postContent := p.content
       ocrText := p.ocr_text
       commentUsername := ""
       commentText := "" }]
  else p.comments.map (commentRow p)

/-- Environment of one iteration of the extraction loop (`ig.py` lines
158-197): `preWaitOk` models that the loop-level
`wait_for_load_state` (line 162) and visible-dialog wait (line 164) both
succeed; `dom` is the DOM state passed to `extract_post_data`; `hasNext`
whether `button svg[aria-label="Next"]` is present (line 188); `nextWaitOk`
that the visible-dialog wait after clicking Next (line 191) succeeds. -/
structure IterEnv where
  preWaitOk : Bool
  dom : PostDom
  hasNext : Bool
  nextWaitOk : Bool

/-- Exit state of the extraction loop.  `rows` are the data rows written to
the CSV (flushed when the `with open` block closes, also on an exception);
`posts` is ghost instrumentation recording the successfully extracted posts
in order; `processed` counts the iterations in which `extract_post_data` was
invoked; `finalCount` is the Python `post_count` variable at exit; `aborted`
records that an uncaught exception propagated out of the loop. -/
structure LoopExit where
  rows : List Row
  posts : List Post
  processed : Nat
  finalCount : Nat
  aborted : Bool
deriving DecidableEq

/-- The `max_posts = 20` cap (`ig.py` line 156). -/
def max_posts : Nat := 20

/-- The extraction loop body (`ig.py` lines 158-197), with `fuel` the number
of remaining iterations allowed by the `while post_count < max_posts` guard
(`fuel = max_posts - post_count`).  Each iteration: the loop-level waits
(lines 161-164) run outside any `try`, so their failure raises out of the
loop; then `extract_post_data` is invoked and its rows (if any) written
(lines 166-186); then the Next control is queried (line 188): if present it
is clicked and the dialog awaited (a failure there also raises), and
`post_count` is incremented (line 196); if absent the loop breaks without
incrementing `post_count` (line 194). -/
def loopAux (env : Nat → IterEnv) : Nat → Nat → List Row → List Post → Nat → LoopExit
  | 0, pc, rows, posts, pr =>
    { rows := rows, posts := posts, processed := pr, finalCount := pc, aborted := false }
  | fuel+1, pc, rows, posts, pr =>
    if (env pc).preWaitOk then
      match extract_post_data (env pc).dom with
      | some p =>
        if (env pc).hasNext then
          if (env pc).nextWaitOk then
            loopAux env fuel (pc+1) (rows ++ rowsForPost p) (posts ++ [p]) (pr+1)
          else
            { rows := rows ++ rowsForPost p, posts := posts ++ [p]
              processed := pr+1, finalCount := pc, aborted := true }
        else
          { rows := rows ++ rowsForPost p, posts := posts ++ [p]
            processed := pr+1, finalCount := pc, aborted := false }
      | none =>
        if (env pc).hasNext then
          if (env pc).nextWaitOk then
            loopAux env fuel (pc+1) rows posts (pr+1)
          else
            { rows := rows, posts := posts, processed := pr+1, finalCount := pc, aborted := true }
        else
          { rows := rows, posts := posts, processed := pr+1, finalCount := pc, aborted := false }
    else
      { rows := rows, posts := posts, processed := pr, finalCount := pc, aborted := true }

/-- The whole extraction loop of one run, started with `post_count = 0` and
no rows written (`ig.py` lines 155-197). -/
def scrapeLoop (it : Nat → IterEnv) : LoopExit :=
  loopAux it max_posts 0 [] [] 0

/-- Environment of one call of `extract_and_download_posts`: whether
`get_first_post` returns `True`, and the per-iteration environments of the
loop (indexed by the value of `post_count` at the iteration's start). -/
structure RunEnv where
  firstPostOk : Bool
  iters : Nat → IterEnv

/-- State of the output CSV file after a run: `notWritten` means the
`open(self.CSV_FILE, mode='w')` on line 151 was never executed (the file is
not created or truncated); `written rows` means the file holds the header
row followed by exactly `rows`. -/
inductive FileOutput where
  | notWritten
  | written (dataRows : List Row)
deriving DecidableEq

/-- Observable result of `extract_and_download_posts`: the output file
state, the count in the final `"Finished processing {post_count} posts"` log
line when that line is reached (line 199; `none` when an exception skips
it), whether an exception propagated to the caller, and the ghost `posts`
and `processed` instrumentation of the loop. -/
structure ExtractResult where
  fileOut : FileOutput
  loggedFinish : Option Nat
  raised : Bool
  posts : List Post
  processed : Nat
deriving DecidableEq

/-- The driver `extract_and_download_posts` (`ig.py` lines 146-199): if
`get_first_post` fails it returns at line 149, before the output file is
opened; otherwise it opens the file, writes the header, runs the loop, and
(when no exception was raised) logs the final `post_count`. -/
def extract_and_download_posts (env : RunEnv) : ExtractResult :=
  if env.firstPostOk then
    let ex := scrapeLoop env.iters
    { fileOut := FileOutput.written ex.rows
      loggedFinish := if ex.aborted then none else some ex.finalCount
      raised := ex.aborted
      posts := ex.posts
      processed := ex.processed }
  else
    { fileOut := FileOutput.notWritten
      loggedFinish := none
      raised := false
      posts := []
      processed := 0 }

/-- Observable events of the top-level `run` coroutine that matter for
teardown: an error being logged by the `except` clause, and the browser
being closed. -/
inductive RunEvent where
  | errorLogged
  | browserClose
deriving DecidableEq

/-- The top-level `run` (`ig.py` lines 201-214), after the browser and page
have been created: `login` (modelled by the flag `loginOk`: `False` means it
raised) and `extract_and_download_posts` run inside a `try`; any exception
is caught and logged by the `except` clause (line 211-212); the `finally`
clause closes the browser (line 213-214) on every path. -/
def runScraper (loginOk : Bool) (env : RunEnv) : List RunEvent :=
  if loginOk then
    (if (extract_and_download_posts env).raised then [RunEvent.errorLogged] else [])
      ++ [RunEvent.browserClose]
  else
    [RunEvent.errorLogged, RunEvent.browserClose]

/-- Rows of a list of posts, concatenated in order: the shape the CSV body
takes when exactly these posts were successfully extracted. -/
def postsRows (ps : List Post) : List Row :=
  (ps.map rowsForPost).flatten

/-! Concrete environments used to evaluate the model on specific runs. -/

/-- DOM state of a simple post: dialog reachable, a post link `"u"`, a
caption `"c"`, no image, no comment elements. -/
def domDefault : PostDom :=
  { dialogOk := true, linkHref := some "u", heading := some "c"
    ocr := OcrOutcome.noImage, commentElems := [] }

/-- Row written for `domDefault`: no comments, so a single row with empty
comment fields. -/
def rowDefault : Row :=
  { postUrl := some "u", postContent := "c", ocrText := ""
    commentUsername := "", commentText := "" }

/-- Iteration in which everything succeeds and no Next control is present. -/
def iterLast : IterEnv :=
  { preWaitOk := true, dom := domDefault, hasNext := false, nextWaitOk := true }

/-- Iteration in which everything succeeds and a Next control is present. -/
def iterNext : IterEnv :=
  { preWaitOk := true, dom := domDefault, hasNext := true, nextWaitOk := true }

/-- Profile with unboundedly many posts: a Next control is always present. -/
def itersAllNext : Nat → IterEnv := fun _ => iterNext

/-- Run in which `get_first_post` fails. -/
def envNoFirst : RunEnv :=
  { firstPostOk := false, iters := fun _ => iterLast }

/-- Run with exactly one post: discovery succeeds, the first iteration
succeeds, and no Next control is present after it. -/
def envOnePost : RunEnv :=
  { firstPostOk := true, iters := fun _ => iterLast }

/-- Iterations of a run in which the first post is processed normally but
the loop-level visible-dialog wait times out at the second iteration, while
further posts (with a Next control) remain available. -/
def itersVisibleTimeout : Nat → IterEnv := fun n =>
  if n = 0 then iterNext
  else { preWaitOk := false, dom := domDefault, hasNext := true, nextWaitOk := true }

/-- Run whose second loop iteration's visible-dialog wait times out while
further posts remain available. -/
def envVisibleTimeout : RunEnv :=
  { firstPostOk := true, iters := itersVisibleTimeout }

/-- Iterations in which the loop-level waits succeed but the extraction
routine itself fails (its dialog wait times out), with a Next control
present. -/
def itersNullResult : Nat → IterEnv := fun _ =>
  { preWaitOk := true
    dom := { domDefault with dialogOk := false }
    hasNext := true, nextWaitOk := true }

/-- DOM state of a post whose OCR sub-step raises an error. -/
def domOcrError : PostDom := { domDefault with ocr := OcrOutcome.error }

/-- Comment element with both username and text present and valid. -/
def ceAlice : CommentElem := { username := some "alice", text := some "nice" }

/-- Comment element whose body text is empty. -/
def ceEmptyText : CommentElem := { username := some "bob", text := some "" }

/-- Comment element whose body text is the literal placeholder. -/
def ceNoTextBody : CommentElem := { username := some "bob", text := some "No text" }

/-- Comment element whose username element is absent but whose text is a
valid body. -/
def ceNoUser : CommentElem := { username := none, text := some "scam alert" }

/-- DOM state of a post carrying four comment elements, of which the second
and third are dropped by the filter. -/
def domWithComments : PostDom :=
  { dialogOk := true, linkHref := some "u", heading := some "c"
    ocr := OcrOutcome.noImage
    commentElems := [ceAlice, ceEmptyText, ceNoTextBody, ceNoUser] }

/-- Post extracted from `domWithComments`. -/
def postWithComments : Post :=
  { url := some "u", content := "c", ocr_text := ""
    comments := [{ username := "alice", text := "nice" },
                 { username := "Unknown", text := "scam alert" }] }

/-- DOM state of a post whose overlay has no anchor matching the post-link
pattern. -/
def domNoUrl : PostDom := { domDefault with linkHref := none }

/-! Helper lemmas. -/

/-- Lemma: a successfully extracted post contributes exactly
`max 1 (number of comments)` rows. -/
theorem rowsForPost_length (p : Post) :
    (rowsForPost p).length = max 1 p.comments.length := by
  by_cases hc : p.comments = []
  · simp [rowsForPost, hc]
  · rcases hl : p.comments with _ | ⟨a, l⟩
    · exact absurd hl hc
    · simp [rowsForPost, hc, hl]

/-- Lemma: a successfully extracted post always contributes at least one
row. -/
theorem rowsForPost_ne_nil (p : Post) : rowsForPost p ≠ [] := by
  by_cases hc : p.comments = []
  · simp [rowsForPost, hc]
  · rcases hl : p.comments with _ | ⟨a, l⟩
    · exact absurd hl hc
    · simp [rowsForPost, hc, hl]

/-- Lemma: every row written for a post carries that post's URL in the
first column. -/
theorem rowsForPost_postUrl (p : Post) : ∀ r ∈ rowsForPost p, r.postUrl = p.url := by
  intro r hr
  by_cases hc : p.comments = []
  · simp [rowsForPost, hc] at hr
    simp [hr]
  · simp [rowsForPost, hc] at hr
    rcases hr with ⟨c, _, hr⟩
    simp [← hr, commentRow]

/-- Lemma: `postsRows` distributes over list append. -/
theorem postsRows_append (ps qs : List Post) :
    postsRows (ps ++ qs) = postsRows ps ++ postsRows qs := by
  simp [postsRows]

/-- Lemma: the total length of the rows of a post list is the sum of
`max 1 (number of comments)` over its posts. -/
theorem postsRows_length (ps : List Post) :
    (postsRows ps).length = (ps.map (fun p => max 1 p.comments.length)).sum := by
  induction ps with
  | nil => simp [postsRows]
  | cons p ps ih =>
    simp only [postsRows, List.map_cons, List.flatten_cons, List.length_append,
      List.sum_cons] at ih ⊢
    rw [rowsForPost_length, ih]

/-- Lemma: the loop preserves the invariant that the rows written so far are
exactly the concatenated rows of the successfully extracted posts. -/
theorem loopAux_rows_invariant (env : Nat → IterEnv) (fuel : Nat) :
    ∀ (pc pr : Nat) (rows : List Row) (posts : List Post),
      rows = postsRows posts →
      (loopAux env fuel pc rows posts pr).rows
        = postsRows ((loopAux env fuel pc rows posts pr).posts) := by
  induction fuel with
  | zero =>
    intro pc pr rows posts h
    simpa [loopAux] using h
  | succ fuel ih =>
    intro pc pr rows posts h
    have hstep : ∀ p : Post, rows ++ rowsForPost p = postsRows (posts ++ [p]) := by
      intro p
      rw [postsRows_append, h]
      simp [postsRows]
    cases hpre : (env pc).preWaitOk with
    | false => simpa [loopAux, hpre] using h
    | true =>
      cases hx : extract_post_data (env pc).dom with
      | none =>
        cases hn : (env pc).hasNext with
        | false => simpa [loopAux, hpre, hx, hn] using h
        | true =>
          cases hw : (env pc).nextWaitOk with
          | false => simpa [loopAux, hpre, hx, hn, hw] using h
          | true =>
            simpa [loopAux, hpre, hx, hn, hw] using ih (pc+1) (pr+1) rows posts h
      | some p =>
        cases hn : (env pc).hasNext with
        | false => simpa [loopAux, hpre, hx, hn] using hstep p
        | true =>
          cases hw : (env pc).nextWaitOk with
          | false => simpa [loopAux, hpre, hx, hn, hw] using hstep p
          | true =>
            simpa [loopAux, hpre, hx, hn, hw] using
              ih (pc+1) (pr+1) (rows ++ rowsForPost p) (posts ++ [p]) (hstep p)

/-- Lemma: the loop performs at most `fuel` further iterations, so the
processed count grows by at most `fuel`. -/
theorem loopAux_processed_le (env : Nat → IterEnv) (fuel : Nat) :
    ∀ (pc pr : Nat) (rows : List Row) (posts : List Post),
      (loopAux env fuel pc rows posts pr).processed ≤ pr + fuel := by
  induction fuel with
  | zero =>
    intro pc pr rows posts
    simp [loopAux]
  | succ fuel ih =>
    intro pc pr rows posts
    cases hpre : (env pc).preWaitOk with
    | false => simp [loopAux, hpre]
    | true =>
      cases hx : extract_post_data (env pc).dom with
      | none =>
        cases hn : (env pc).hasNext with
        | false => simp [loopAux, hpre, hx, hn]
        | true =>
          cases hw : (env pc).nextWaitOk with
          | false => simp [loopAux, hpre, hx, hn, hw]
          | true =>
            have := ih (pc+1) (pr+1) rows posts
            simp only [loopAux, hpre, hx, hn, hw, if_true]
            omega
      | some p =>
        cases hn : (env pc).hasNext with
        | false => simp [loopAux, hpre, hx, hn]
        | true =>
          cases hw : (env pc).nextWaitOk with
          | false => simp [loopAux, hpre, hx, hn, hw]
          | true =>
            have := ih (pc+1) (pr+1) (rows ++ rowsForPost p) (posts ++ [p])
            simp only [loopAux, hpre, hx, hn, hw, if_true]
            omega

/-! Claims. -/

/-- C1: for every run, each post whose extraction succeeds contributes
exactly `max 1 (number of valid comments)` rows to the CSV output — one row
per valid comment in discovery order, or exactly one row with empty comment
fields when the post has zero valid comments — so the data rows are exactly
the concatenated per-post rows of the successfully extracted posts, and the
total number of data rows is the sum over those posts of
`max 1 (number of comments)`. -/
theorem c1_rows_per_post (it : Nat → IterEnv) :
    (scrapeLoop it).rows = postsRows (scrapeLoop it).posts
    ∧ (∀ p : Post, (rowsForPost p).length = max 1 p.comments.length)
    ∧ (∀ p : Post, p.comments ≠ [] → rowsForPost p = p.comments.map (commentRow p))
    ∧ ((scrapeLoop it).rows).length
        = (((scrapeLoop it).posts).map (fun p => max 1 p.comments.length)).sum := by
  have h0 : ([] : List Row) = postsRows [] := by simp [postsRows]
  have h1 := loopAux_rows_invariant it max_posts 0 0 [] [] h0
  have h1' : (scrapeLoop it).rows = postsRows (scrapeLoop it).posts := by
    simpa [scrapeLoop] using h1
  refine ⟨h1', rowsForPost_length, ?_, ?_⟩
  · intro p hp
    simp [rowsForPost, hp]
  · rw [h1']
    exact postsRows_length _

/-- Witness for C1: at the post extracted from `domWithComments`, which has
two valid comments, the rows are one per comment in order and the row count
is `max 1 2 = 2`. -/
theorem c1_rows_per_post_witness :
    rowsForPost postWithComments
      = postWithComments.comments.map (commentRow postWithComments)
    ∧ (rowsForPost postWithComments).length = max 1 postWithComments.comments.length :=
  ⟨(c1_rows_per_post itersAllNext).2.2.1 postWithComments (by decide),
   (c1_rows_per_post itersAllNext).2.1 postWithComments⟩

/-- C2 as stated is false: when entry-point discovery fails,
`extract_and_download_posts` returns on line 149, before the `open` on line
151, so the output file is never written — it does not contain a header row.
At the concrete run `envNoFirst` the file state is `notWritten`, not
`written []` (a header with zero data rows). -/
theorem c2_counterexample :
    (extract_and_download_posts envNoFirst).fileOut = FileOutput.notWritten
    ∧ ¬ (extract_and_download_posts envNoFirst).fileOut = FileOutput.written [] := by
  exact ⟨rfl, by decide⟩

/-- C2 (amended): for every run in which entry-point discovery fails, the
routine returns before opening the output file, so nothing is written in
that run — not even a header row — and no exception is raised. -/
theorem c2_no_file_on_discovery_failure (env : RunEnv) (h : env.firstPostOk = false) :
    (extract_and_download_posts env).fileOut = FileOutput.notWritten
    ∧ (extract_and_download_posts env).raised = false := by
  simp [extract_and_download_posts, h]

/-- Witness for the amended C2 at the concrete run `envNoFirst`. -/
theorem c2_no_file_on_discovery_failure_witness :
    (extract_and_download_posts envNoFirst).fileOut = FileOutput.notWritten
    ∧ (extract_and_download_posts envNoFirst).raised = false :=
  c2_no_file_on_discovery_failure envNoFirst rfl

/-- C3: the extraction loop processes at most `max_posts = 20` posts in
every run; and in the concrete run `itersAllNext`, where a Next control is
still available after the 20th post, exactly 20 posts are processed and the
loop ends normally (no abort), so no 21st post is extracted. -/
theorem c3_post_cap (it : Nat → IterEnv) :
    (scrapeLoop it).processed ≤ max_posts
    ∧ (scrapeLoop itersAllNext).processed = max_posts
    ∧ (scrapeLoop itersAllNext).aborted = false := by
  refine ⟨?_, by decide, by decide⟩
  have := loopAux_processed_le it max_posts 0 0 [] []
  simpa [scrapeLoop] using this

/-- C4: for every post whose extraction succeeds, if no image element is
found the OCR-text field is exactly the empty string; if image capture,
decoding or recognition raises an error the OCR-text field is exactly the
sentinel `"OCR processing failed"` (which is not the empty string); and in
both cases extraction of the remaining fields (URL, caption, comments) still
succeeds. -/
theorem c4_ocr_fallbacks (d : PostDom) (h : d.dialogOk = true) :
    ∃ p : Post, extract_post_data d = some p
      ∧ p.ocr_text = ocrStep d.ocr
      ∧ (d.ocr = OcrOutcome.noImage → p.ocr_text = "")
      ∧ (d.ocr = OcrOutcome.error → p.ocr_text = "OCR processing failed")
      ∧ ocrStep OcrOutcome.error ≠ ""
      ∧ p.url = d.linkHref
      ∧ p.content = d.heading.getD "No content found"
      ∧ p.comments = extractComments d.commentElems := by
  refine ⟨{ url := d.linkHref
            content := d.heading.getD "No content found"
            ocr_text := ocrStep d.ocr
            comments := extractComments d.commentElems },
          ?_, rfl, ?_, ?_, by decide, rfl, rfl, rfl⟩
  · simp [extract_post_data, h]
  · intro h2
    simp [h2, ocrStep]
  · intro h2
    simp [h2, ocrStep]

/-- Witness for C4 at `domOcrError`, whose OCR sub-step raises: extraction
still succeeds and the OCR field is the sentinel. -/
theorem c4_ocr_fallbacks_witness :
    ∃ p : Post, extract_post_data domOcrError = some p
      ∧ p.ocr_text = ocrStep domOcrError.ocr
      ∧ (domOcrError.ocr = OcrOutcome.noImage → p.ocr_text = "")
      ∧ (domOcrError.ocr = OcrOutcome.error → p.ocr_text = "OCR processing failed")
      ∧ ocrStep OcrOutcome.error ≠ ""
      ∧ p.url = domOcrError.linkHref
      ∧ p.content = domOcrError.heading.getD "No content found"
      ∧ p.comments = extractComments domOcrError.commentElems :=
  c4_ocr_fallbacks domOcrError rfl

/-- C5: for every post returned by the extraction routine, comment entries
whose text is empty or exactly `"No text"` have been dropped: every comment
of the post has a non-empty, non-placeholder text; no row of the post has
`"No text"` as its comment text; and when the post has at least one valid
comment, no row has an empty comment text either. -/
theorem c5_comment_filter (d : PostDom) (p : Post)
    (h : extract_post_data d = some p) :
    (∀ c ∈ p.comments, c.text ≠ "" ∧ c.text ≠ "No text")
    ∧ (∀ r ∈ rowsForPost p, r.commentText ≠ "No text")
    ∧ (p.comments ≠ [] → ∀ r ∈ rowsForPost p, r.commentText ≠ "") := by
  have hd : d.dialogOk = true := by
    by_contra hd
    simp [extract_post_data, hd] at h
  have hp : p.comments = extractComments d.commentElems := by
    simp [extract_post_data, hd] at h
    rw [← h]
  have key : ∀ c ∈ p.comments, c.text ≠ "" ∧ c.text ≠ "No text" := by
    intro c hc
    rw [hp] at hc
    have := List.of_mem_filter hc
    simpa using this
  refine ⟨key, ?_, ?_⟩
  · intro r hr
    by_cases hnil : p.comments = []
    · simp [rowsForPost, hnil] at hr
      simp [hr]
    · simp [rowsForPost, hnil] at hr
      rcases hr with ⟨c, hc, hr⟩
      rw [← hr]
      exact (key c hc).2
  · intro hnil r hr
    simp [rowsForPost, hnil] at hr
    rcases hr with ⟨c, hc, hr⟩
    rw [← hr]
    exact (key c hc).1

/-- Witness for C5 at `domWithComments`: its extracted post keeps exactly
the two valid comments, and the concrete kept comment bodies are neither
empty nor the placeholder. -/
theorem c5_comment_filter_witness :
    extract_post_data domWithComments = some postWithComments
    ∧ (∀ c ∈ postWithComments.comments, c.text ≠ "" ∧ c.text ≠ "No text") :=
  ⟨by decide, (c5_comment_filter domWithComments postWithComments (by decide)).1⟩

/-- C6 as stated is false: the loop-level visible-overlay wait (`ig.py` line
164) runs outside any `try`, so its timeout during the processing of a post
does not produce a null result and does not let the run continue — it
aborts the run.  In the concrete run `envVisibleTimeout`, the wait times out
at the second iteration while further posts remain available: only 1 post is
ever processed and the exception propagates to the caller. -/
theorem c6_counterexample :
    (itersVisibleTimeout 1).preWaitOk = false
    ∧ (itersVisibleTimeout 2).hasNext = true
    ∧ (scrapeLoop itersVisibleTimeout).aborted = true
    ∧ (scrapeLoop itersVisibleTimeout).processed = 1
    ∧ (extract_and_download_posts envVisibleTimeout).raised = true := by
  decide

/-- C6 (amended): any failure inside the per-post extraction routine itself
(`extract_post_data`, including its own overlay wait timing out) yields a
null result, and on a null result the loop writes no rows for that post and
continues to the next post; a timeout of the loop-level waits before
invoking the routine instead propagates and aborts the run. -/
theorem c6_null_result_skips_post (env : Nat → IterEnv) (fuel pc pr : Nat)
    (rows : List Row) (posts : List Post)
    (h1 : (env pc).preWaitOk = true)
    (h2 : (env pc).dom.dialogOk = false)
    (h3 : (env pc).hasNext = true)
    (h4 : (env pc).nextWaitOk = true) :
    extract_post_data (env pc).dom = none
    ∧ loopAux env (fuel+1) pc rows posts pr = loopAux env fuel (pc+1) rows posts (pr+1) := by
  have hx : extract_post_data (env pc).dom = none := by
    simp [extract_post_data, h2]
  exact ⟨hx, by simp [loopAux, h1, hx, h3, h4]⟩

/-- Witness for the amended C6 at `itersNullResult`: the routine fails, no
rows are written, and the loop moves on to the next post. -/
theorem c6_null_result_skips_post_witness :
    extract_post_data (itersNullResult 0).dom = none
    ∧ loopAux itersNullResult 1 0 [] [] 0 = loopAux itersNullResult 0 1 [] [] 1 :=
  c6_null_result_skips_post itersNullResult 0 0 0 [] [] rfl rfl rfl rfl

/-- C7: for every run — login failing or succeeding, extraction raising or
completing — the `finally` clause closes the browser session exactly once
before the run ends. -/
theorem c7_browser_closed_once (loginOk : Bool) (env : RunEnv) :
    (runScraper loginOk env).count RunEvent.browserClose = 1 := by
  cases loginOk with
  | false =>
    show ([RunEvent.errorLogged, RunEvent.browserClose].count RunEvent.browserClose) = 1
    decide
  | true =>
    cases hr : (extract_and_download_posts env).raised with
    | false =>
      simp only [runScraper, hr, if_true, if_false, Bool.false_eq_true]
      decide
    | true =>
      simp only [runScraper, hr, if_true]
      decide

/-- C8 concerns a code slip: in the run `envOnePost` (one post, everything
succeeding, no Next control after it) the loop processes 1 post and writes
its row, but the `break` on line 194 skips the `post_count += 1` on line
196, so line 199 logs `"Finished processing 0 posts"` — the logged count is
0, not the 1 post actually processed. -/
theorem c8_logged_count_off_by_one :
    (extract_and_download_posts envOnePost).processed = 1
    ∧ (extract_and_download_posts envOnePost).fileOut = FileOutput.written [rowDefault]
    ∧ (extract_and_download_posts envOnePost).loggedFinish = some 0 := by
  decide

/-- C9: a comment element with valid text but no username element is kept,
with its username field exactly `"Unknown"`: it maps to the comment
`{username := "Unknown", text := t}` and survives the filter in every
comment list containing it. -/
theorem c9_missing_username_unknown (e : CommentElem) (t : String)
    (h1 : e.username = none) (h2 : e.text = some t)
    (h3 : t ≠ "") (h4 : t ≠ "No text") :
    commentOf e = { username := "Unknown", text := t }
    ∧ ∀ es : List CommentElem, e ∈ es →
        ({ username := "Unknown", text := t } : Comment) ∈ extractComments es := by
  have hco : commentOf e = { username := "Unknown", text := t } := by
    simp [commentOf, jsOrDefault, h1, h2, h3]
  refine ⟨hco, ?_⟩
  intro es hes
  have hmem : ({ username := "Unknown", text := t } : Comment) ∈ es.map commentOf := by
    rw [← hco]
    exact List.mem_map_of_mem commentOf hes
  refine List.mem_filter.mpr ⟨hmem, ?_⟩
  simp [h3, h4]

/-- Witness for C9 at `ceNoUser`: the comment body `"scam alert"` is kept
with username `"Unknown"`. -/
theorem c9_missing_username_unknown_witness :
    commentOf ceNoUser = { username := "Unknown", text := "scam alert" }
    ∧ ({ username := "Unknown", text := "scam alert" } : Comment)
        ∈ extractComments [ceNoUser] :=
  ⟨(c9_missing_username_unknown ceNoUser "scam alert" rfl rfl (by decide) (by decide)).1,
   (c9_missing_username_unknown ceNoUser "scam alert" rfl rfl (by decide) (by decide)).2
     [ceNoUser] (by simp)⟩

/-- C10: a post whose open overlay has no anchor matching the post-link
pattern still extracts successfully, with a null URL, and its row(s) are
still written, each carrying the null value in the Post URL column. -/
theorem c10_null_url_rows_written (d : PostDom) (h : d.dialogOk = true)
    (hl : d.linkHref = none) :
    ∃ p : Post, extract_post_data d = some p
      ∧ p.url = none
      ∧ rowsForPost p ≠ []
      ∧ ∀ r ∈ rowsForPost p, r.postUrl = none := by
  refine ⟨{ url := d.linkHref
            content := d.heading.getD "No content found"
            ocr_text := ocrStep d.ocr
            comments := extractComments d.commentElems },
          by simp [extract_post_data, h], hl, rowsForPost_ne_nil _, ?_⟩
  intro r hr
  have := rowsForPost_postUrl _ r hr
  simpa [hl] using this

/-- Witness for C10 at `domNoUrl`. -/
theorem c10_null_url_rows_written_witness :
    ∃ p : Post, extract_post_data domNoUrl = some p
      ∧ p.url = none
      ∧ rowsForPost p ≠ []
      ∧ ∀ r ∈ rowsForPost p, r.postUrl = none :=
  c10_null_url_rows_written domNoUrl rfl rfl

end IgScraper
